import Mathlib

/-!
Formal model of the eligibility engine of the credit-approval system.

The Python source is embedded shallowly:
* `Decimal` / `float` arithmetic is modelled by exact rationals (`ℚ`);
  the explicit roundings to two decimal places
  (`Decimal.quantize(Decimal("0.01"))` and the Python `round(x, 2)`,
  both round-half-even) are modelled by `quantize2`.
* Python `int(x)` (truncation toward zero) is modelled by `int_trunc`.
* `datetime.date` is modelled by `Date` with lexicographic comparison.
* Django ORM entities become plain structures; the ambient `date.today()`
  used by `Loan.repayments_left` and the credit-score computation is an
  explicit `today : Date` parameter.
-/

namespace CreditSystem

/-- Calendar date `(year, month, day)` as in Python `datetime.date`. -/
structure Date where
  year : ℤ
  month : ℤ
  day : ℤ
deriving DecidableEq

/-- Python date comparison `a <= b`: lexicographic on (year, month, day). -/
def Date.le (a b : Date) : Prop :=
  a.year < b.year ∨ (a.year = b.year ∧
    (a.month < b.month ∨ (a.month = b.month ∧ a.day ≤ b.day)))

instance (a b : Date) : Decidable (Date.le a b) := by
  unfold Date.le; infer_instance

/-- `loans.models.Loan`: the fields read by the eligibility engine. -/
structure Loan where
  loan_amount : ℚ
  tenure : ℤ
  interest_rate : ℚ
  monthly_repayment : ℚ
  emis_paid_on_time : ℤ
  start_date : Date
  end_date : Date
deriving DecidableEq

/-- `Loan.repayments_left` (models.py): 0 once `today >= end_date`; else
`tenure` if the month count since `start_date` is negative, else
`max 0 (tenure - months_passed)`. -/
def Loan.repayments_left (l : Loan) (today : Date) : ℤ :=
  if Date.le l.end_date today then 0
  else
    if (today.year - l.start_date.year) * 12 + (today.month - l.start_date.month) < 0 then
      l.tenure
    else
      max 0 (l.tenure - ((today.year - l.start_date.year) * 12 + (today.month - l.start_date.month)))

/-- `loans.models.Customer`: the fields read by the eligibility engine,
together with the loan collection of the customer and the cached current
credit score (`CreditScore` row with `is_current=True`, if any). -/
structure Customer where
  monthly_salary : ℚ
  approved_limit : ℚ
  loans : List Loan
  credit_score_cache : Option ℤ
deriving DecidableEq

/-- `Customer.get_current_loans_sum`: total `loan_amount` of loans with
`repayments_left > 0`. -/
def Customer.get_current_loans_sum (c : Customer) (today : Date) : ℚ :=
  ((c.loans.filter fun l => decide (0 < l.repayments_left today)).map Loan.loan_amount).sum

/-- `Customer.get_current_emis_sum`: total `monthly_repayment` of loans with
`repayments_left > 0`. -/
def Customer.get_current_emis_sum (c : Customer) (today : Date) : ℚ :=
  ((c.loans.filter fun l => decide (0 < l.repayments_left today)).map Loan.monthly_repayment).sum

/-- Python `int(x)`: truncation toward zero. -/
def int_trunc (x : ℚ) : ℤ :=
  if 0 ≤ x then Int.floor x else Int.ceil x

/-- Round-half-even to the nearest integer, the rounding used by the Python
`Decimal.quantize` (default context) and by `round`. -/
def round_half_even (x : ℚ) : ℤ :=
  if x - Int.floor x < 1/2 then Int.floor x
  else if 1/2 < x - Int.floor x then Int.floor x + 1
  else if Int.floor x % 2 = 0 then Int.floor x else Int.floor x + 1

/-- Rounding to two decimal places, half to even: models
`Decimal(...).quantize(Decimal("0.01"))` and Python `round(x, 2)`. -/
def quantize2 (x : ℚ) : ℚ :=
  (round_half_even (100 * x) : ℚ) / 100

/-- EMI as computed inline in `evaluate_loan` (eligibility_service.py lines
52-61) and in `Loan.calculate_emi` (models.py): monthly rate
`r = annual_rate / 1200`; if `r = 0` the result is `principal / n`
(unrounded), else the annuity formula rounded to two decimals. -/
def calculate_emi (principal annual_rate : ℚ) (n : ℕ) : ℚ :=
  if annual_rate / 1200 = 0 then principal / (n : ℚ)
  else
    quantize2 (principal * (annual_rate / 1200) * (1 + annual_rate / 1200) ^ n /
      ((1 + annual_rate / 1200) ^ n - 1))

/-- EMI as computed inline in `views.evaluate_loan_eligibility` (views.py
lines 88-96): same formula but with no rounding applied. -/
def emi_unrounded (principal annual_rate : ℚ) (n : ℕ) : ℚ :=
  if annual_rate / 1200 = 0 then principal / (n : ℚ)
  else
    principal * (annual_rate / 1200) * (1 + annual_rate / 1200) ^ n /
      ((1 + annual_rate / 1200) ^ n - 1)

/-- `calculate_credit_score` (eligibility_service.py lines 6-39):
50 for empty history, else the capped sum of the on-time, count,
current-year-activity and volume components. -/
def calculate_credit_score (c : Customer) (today : Date) : ℤ :=
  if c.loans.isEmpty then 50
  else
    min
      (int_trunc ((((c.loans.filter fun l => decide (0 < l.emis_paid_on_time)).length : ℚ) /
          (c.loans.length : ℚ)) * 30)
        + min ((c.loans.length : ℤ) * 5) 20
        + min (((c.loans.filter fun l => decide (l.start_date.year = today.year)).length : ℤ) * 5) 20
        + min (int_trunc ((c.loans.map Loan.loan_amount).sum / 100000)) 20)
      100

/-- The credit score actually used by `evaluate_loan` (eligibility_service.py
lines 46-50): the computed score, forced to 0 when the sum of currently
active loan principal exceeds `approved_limit`. -/
def decision_credit_score (c : Customer) (today : Date) : ℤ :=
  if c.get_current_loans_sum today > c.approved_limit then 0
  else calculate_credit_score c today

/-- Result tuple of `evaluate_loan`:
`(approved, credit_score, interest_rate, corrected_interest_rate, emi)`. -/
structure Decision where
  approved : Bool
  credit_score : ℤ
  interest_rate : ℚ
  corrected_rate : Option ℚ
  emi : ℚ
deriving DecidableEq

/-- `evaluate_loan` (eligibility_service.py lines 42-82): score with
over-limit override, EMI, affordability gate, then the score-tiered gate. -/
def evaluate_loan (c : Customer) (today : Date) (loan_amount interest_rate : ℚ)
    (tenure : ℕ) : Decision :=
  if c.get_current_emis_sum today + calculate_emi loan_amount interest_rate tenure >
      1/2 * c.monthly_salary then
    ⟨false, decision_credit_score c today, interest_rate, none,
      calculate_emi loan_amount interest_rate tenure⟩
  else if 50 < decision_credit_score c today then
    ⟨true, decision_credit_score c today, interest_rate, some interest_rate,
      calculate_emi loan_amount interest_rate tenure⟩
  else if 30 < decision_credit_score c today ∧ decision_credit_score c today ≤ 50 then
    ⟨true, decision_credit_score c today, interest_rate,
      some (if interest_rate ≤ 12 then 121/10 else interest_rate),
      calculate_emi loan_amount interest_rate tenure⟩
  else if 10 < decision_credit_score c today ∧ decision_credit_score c today ≤ 30 then
    ⟨true, decision_credit_score c today, interest_rate,
      some (if interest_rate ≤ 16 then 161/10 else interest_rate),
      calculate_emi loan_amount interest_rate tenure⟩
  else
    ⟨false, decision_credit_score c today, interest_rate, some interest_rate,
      calculate_emi loan_amount interest_rate tenure⟩

/-- Result tuple of `views.evaluate_loan_eligibility`:
`(approved, message, emi, credit_score)`. -/
structure CreateDecision where
  approved : Bool
  message : String
  emi : ℚ
  credit_score : ℤ
deriving DecidableEq

/-- `evaluate_loan_eligibility` (views.py lines 77-110): cached score
(default 50), unrounded EMI, then the affordability, approved-limit and
minimum-score gates in that order. -/
def evaluate_loan_eligibility (c : Customer) (today : Date)
    (loan_amount interest_rate : ℚ) (tenure : ℕ) : CreateDecision :=
  if emi_unrounded loan_amount interest_rate tenure > c.monthly_salary * (1/2) then
    ⟨false, "EMI exceeds 50% of monthly income",
      emi_unrounded loan_amount interest_rate tenure, c.credit_score_cache.getD 50⟩
  else if c.get_current_loans_sum today + loan_amount > c.approved_limit then
    ⟨false, "Exceeds approved credit limit",
      emi_unrounded loan_amount interest_rate tenure, c.credit_score_cache.getD 50⟩
  else if c.credit_score_cache.getD 50 < 50 then
    ⟨false, "Credit score too low",
      emi_unrounded loan_amount interest_rate tenure, c.credit_score_cache.getD 50⟩
  else
    ⟨true, "Loan approved",
      quantize2 (emi_unrounded loan_amount interest_rate tenure), c.credit_score_cache.getD 50⟩

/-- HTTP-level view of the `create-loan` endpoint (views.py lines 112-182):
the business decision plus the HTTP status code of the response, which the
code sets to `HTTP_200_OK` unconditionally. -/
structure CreateLoanResponse where
  http_status : ℕ
  loan_approved : Bool
  message : String
deriving DecidableEq

/-- `create_loan` view (views.py lines 112-182), restricted to an existing
customer and validated payload: runs `evaluate_loan_eligibility` and always
responds with status 200. -/
def create_loan_response (c : Customer) (today : Date) (loan_amount interest_rate : ℚ)
    (tenure : ℕ) : CreateLoanResponse :=
  ⟨200, (evaluate_loan_eligibility c today loan_amount interest_rate tenure).approved,
    (evaluate_loan_eligibility c today loan_amount interest_rate tenure).message⟩

/-- HTTP-level view of the `check-eligibility` endpoint response
(views.py lines 43-75). -/
structure CheckEligibilityResponse where
  http_status : ℕ
  approval : Bool
  interest_rate : ℚ
  corrected_interest_rate : ℚ
  monthly_installment : ℚ
deriving DecidableEq

/-- `check_eligibility` view (views.py lines 43-75), restricted to an
existing customer and validated payload: runs `evaluate_loan` and responds
with status 200; a falsy (`None` or zero) corrected rate falls back to the
requested rate. -/
def check_eligibility_response (c : Customer) (today : Date)
    (loan_amount interest_rate : ℚ) (tenure : ℕ) : CheckEligibilityResponse :=
  ⟨200, (evaluate_loan c today loan_amount interest_rate tenure).approved,
    (evaluate_loan c today loan_amount interest_rate tenure).interest_rate,
    (match (evaluate_loan c today loan_amount interest_rate tenure).corrected_rate with
      | none => (evaluate_loan c today loan_amount interest_rate tenure).interest_rate
      | some cr =>
          if cr = 0 then (evaluate_loan c today loan_amount interest_rate tenure).interest_rate
          else cr),
    (evaluate_loan c today loan_amount interest_rate tenure).emi⟩

/-- A fixed evaluation date used by the concrete scenarios below. -/
def today0 : Date := ⟨2025, 10, 12⟩

/-- A customer with salary 50000, derived limit 1800000, no loan history and
no cached credit score. -/
def fresh_customer : Customer := ⟨50000, 1800000, [], none⟩

/-- An active loan (start 2025-01-01, end 2026-01-01, 12 months) of amount
875000 with a small stored monthly repayment, one EMI paid on time. -/
def active_loan : Loan := ⟨875000, 12, 10, 1000, 1, ⟨2025, 1, 1⟩, ⟨2026, 1, 1⟩⟩

/-- A high-salary customer holding four active loans of 875000 each
(3500000 in total) against an approved limit of 3600000, cached score 80. -/
def near_limit_customer : Customer :=
  ⟨1000000, 3600000, [active_loan, active_loan, active_loan, active_loan], some 80⟩

/-- A customer whose active loan principal (3500000) exceeds the approved
limit (1000000). -/
def over_limit_customer : Customer :=
  ⟨1000000, 1000000, [active_loan, active_loan, active_loan, active_loan], none⟩

/-- A historical loan with a negative recorded amount. -/
def negative_amount_loan : Loan :=
  ⟨-10000000, 12, 10, 100, 0, ⟨1999, 1, 1⟩, ⟨2000, 1, 1⟩⟩

/-- A customer whose only historical loan has a negative amount. -/
def negative_volume_customer : Customer := ⟨50000, 1800000, [negative_amount_loan], none⟩

/-- A customer with no loans and a cached current credit score of 30. -/
def low_score_customer : Customer := ⟨50000, 1800000, [], some 30⟩

/-- Present value of an annuity of 1 per month for `n` months at monthly
rate `m`: the sum of the discount factors `(1+m)^-(k+1)`. The unrounded EMI
formula equals `principal / annuity_sum` (proved below); this form makes
the monotonicity of the EMI in the rate transparent. -/
def annuity_sum (m : ℚ) (n : ℕ) : ℚ :=
  ∑ k ∈ Finset.range n, ((1 + m) ^ (k + 1))⁻¹

/-- C5: for every principal `p > 0` and tenure `n ≥ 1`, the EMI computed
with annual rate 0 is exactly the rational quotient `p / n`. -/
theorem emi_zero_rate_exact (p : ℚ) (n : ℕ) (hp : 0 < p) (hn : 1 ≤ n) :
    calculate_emi p 0 n = p / (n : ℚ) := by
  unfold calculate_emi
  norm_num

/-- Witness for C5 at `p = 5`, `n = 4`. -/
theorem emi_zero_rate_exact_witness :
    (0:ℚ) < 5 ∧ 1 ≤ 4 ∧ calculate_emi 5 0 4 = 5 / 4 := by
  refine ⟨by norm_num, by norm_num, ?_⟩
  have h := emi_zero_rate_exact 5 4 (by norm_num) (by norm_num)
  simpa using h

/-- C1: whenever the sum of EMIs of currently active loans plus the EMI of
the request exceeds half the monthly salary, `evaluate_loan` rejects with a
null corrected rate and the computed EMI, with no assumption on the credit
score (the affordability gate short-circuits the score-tiered gate). -/
theorem affordability_gate_rejects (c : Customer) (today : Date) (amount rate : ℚ)
    (n : ℕ) (ha : 0 < amount) (hn : 1 ≤ n) (hr : 0 ≤ rate)
    (hgate : c.get_current_emis_sum today + calculate_emi amount rate n >
      1/2 * c.monthly_salary) :
    evaluate_loan c today amount rate n =
      ⟨false, decision_credit_score c today, rate, none, calculate_emi amount rate n⟩ := by
  unfold evaluate_loan
  rw [if_pos hgate]

/-- Witness for C1: salary 50000, requested 2000000 at 12 percent over 12
months; the EMI alone exceeds 25000. -/
theorem affordability_gate_rejects_witness :
    evaluate_loan fresh_customer today0 2000000 12 12 =
      ⟨false, decision_credit_score fresh_customer today0, 12, none,
        calculate_emi 2000000 12 12⟩ :=
  affordability_gate_rejects fresh_customer today0 2000000 12 12
    (by norm_num) (by norm_num) (by norm_num)
    (by norm_num [fresh_customer, today0, Customer.get_current_emis_sum,
      calculate_emi, quantize2, round_half_even])

/-- C2: past the affordability gate, the score-tiered gate of `evaluate_loan`
approves with no correction for score above 50, corrects the rate to 12.1
(when the requested rate is at most 12.0) for scores in (30, 50], corrects to
16.1 (when at most 16.0) for scores in (10, 30], and rejects for score at
most 10. -/
theorem score_tier_gate (c : Customer) (today : Date) (amount rate : ℚ) (n : ℕ)
    (hpass : ¬ (c.get_current_emis_sum today + calculate_emi amount rate n >
      1/2 * c.monthly_salary)) :
    (50 < decision_credit_score c today →
      evaluate_loan c today amount rate n =
        ⟨true, decision_credit_score c today, rate, some rate,
          calculate_emi amount rate n⟩)
    ∧ (30 < decision_credit_score c today ∧ decision_credit_score c today ≤ 50 →
      evaluate_loan c today amount rate n =
        ⟨true, decision_credit_score c today, rate,
          some (if rate ≤ 12 then 121/10 else rate), calculate_emi amount rate n⟩)
    ∧ (10 < decision_credit_score c today ∧ decision_credit_score c today ≤ 30 →
      evaluate_loan c today amount rate n =
        ⟨true, decision_credit_score c today, rate,
          some (if rate ≤ 16 then 161/10 else rate), calculate_emi amount rate n⟩)
    ∧ (decision_credit_score c today ≤ 10 →
      (evaluate_loan c today amount rate n).approved = false) := by
  unfold evaluate_loan
  rw [if_neg hpass]
  refine ⟨fun h => ?_, fun h => ?_, fun h => ?_, fun h => ?_⟩
  · rw [if_pos h]
  · rw [if_neg (by omega), if_pos h]
  · rw [if_neg (by omega), if_neg (by omega), if_pos h]
  · rw [if_neg (by omega), if_neg (by omega), if_neg (by omega)]

/-- Witness for C2: a customer with no history has score 50, landing in the
(30, 50] tier; a requested rate of 10.0 is corrected to 12.1. -/
theorem score_tier_gate_witness :
    evaluate_loan fresh_customer today0 100000 10 12 =
      ⟨true, decision_credit_score fresh_customer today0, 10,
        some (if (10:ℚ) ≤ 12 then 121/10 else 10), calculate_emi 100000 10 12⟩ :=
  (score_tier_gate fresh_customer today0 100000 10 12
    (by norm_num [fresh_customer, today0, Customer.get_current_emis_sum,
      calculate_emi, quantize2, round_half_even])).2.1
    (by norm_num [decision_credit_score, calculate_credit_score,
      Customer.get_current_loans_sum, fresh_customer, today0])

/-- The credit score returned by `evaluate_loan` is the post-override score
in every branch. -/
theorem evaluate_loan_credit_score (c : Customer) (today : Date) (amount rate : ℚ)
    (n : ℕ) :
    (evaluate_loan c today amount rate n).credit_score = decision_credit_score c today := by
  unfold evaluate_loan
  split_ifs <;> rfl

/-- C3: if the sum of currently active loan principal strictly exceeds the
approved limit, `evaluate_loan` uses credit score 0 in its decision;
otherwise it uses the score computed from the loan history unchanged. -/
theorem over_limit_forces_zero_score (c : Customer) (today : Date) (amount rate : ℚ)
    (n : ℕ) :
    (c.get_current_loans_sum today > c.approved_limit →
      (evaluate_loan c today amount rate n).credit_score = 0)
    ∧ (¬ c.get_current_loans_sum today > c.approved_limit →
      (evaluate_loan c today amount rate n).credit_score = calculate_credit_score c today) := by
  constructor <;> intro h <;>
    rw [evaluate_loan_credit_score] <;> unfold decision_credit_score
  · rw [if_pos h]
  · rw [if_neg h]

/-- Witness for C3: a customer 3500000 over an approved limit of 1000000 gets
score 0 in the decision. -/
theorem over_limit_forces_zero_score_witness :
    (evaluate_loan over_limit_customer today0 100000 10 12).credit_score = 0 :=
  (over_limit_forces_zero_score over_limit_customer today0 100000 10 12).1
    (by norm_num [over_limit_customer, Customer.get_current_loans_sum, active_loan,
      Loan.repayments_left, Date.le, today0])

/-- C10: whenever `evaluate_loan` returns a non-null corrected interest rate,
that rate is at least the requested rate. -/
theorem corrected_rate_never_lower (c : Customer) (today : Date) (amount rate : ℚ)
    (n : ℕ) (cr : ℚ) (ha : 0 < amount) (hn : 1 ≤ n) (hr : 0 ≤ rate)
    (hc : (evaluate_loan c today amount rate n).corrected_rate = some cr) :
    rate ≤ cr := by
  unfold evaluate_loan at hc
  split_ifs at hc <;> simp_all <;> linarith

/-- Witness for C10: requested rate 10.0 corrected to 12.1, and 10 ≤ 12.1. -/
theorem corrected_rate_never_lower_witness : (10:ℚ) ≤ 121/10 :=
  corrected_rate_never_lower fresh_customer today0 100000 10 12 (121/10)
    (by norm_num) (by norm_num) (by norm_num)
    (by norm_num [evaluate_loan, decision_credit_score, calculate_credit_score,
      calculate_emi, quantize2, round_half_even, Customer.get_current_emis_sum,
      Customer.get_current_loans_sum, fresh_customer, today0])

/-- C7: the create-loan decision function applies the affordability gate,
then the approved-limit gate, then the minimum-score gate, each
short-circuiting the rest, and approves otherwise. -/
theorem create_loan_gate_order (c : Customer) (today : Date) (amount rate : ℚ)
    (n : ℕ) :
    (emi_unrounded amount rate n > c.monthly_salary * (1/2) →
      evaluate_loan_eligibility c today amount rate n =
        ⟨false, "EMI exceeds 50% of monthly income", emi_unrounded amount rate n,
          c.credit_score_cache.getD 50⟩)
    ∧ (¬ emi_unrounded amount rate n > c.monthly_salary * (1/2) →
        c.get_current_loans_sum today + amount > c.approved_limit →
      evaluate_loan_eligibility c today amount rate n =
        ⟨false, "Exceeds approved credit limit", emi_unrounded amount rate n,
          c.credit_score_cache.getD 50⟩)
    ∧ (¬ emi_unrounded amount rate n > c.monthly_salary * (1/2) →
        ¬ c.get_current_loans_sum today + amount > c.approved_limit →
        c.credit_score_cache.getD 50 < 50 →
      evaluate_loan_eligibility c today amount rate n =
        ⟨false, "Credit score too low", emi_unrounded amount rate n,
          c.credit_score_cache.getD 50⟩)
    ∧ (¬ emi_unrounded amount rate n > c.monthly_salary * (1/2) →
        ¬ c.get_current_loans_sum today + amount > c.approved_limit →
        ¬ c.credit_score_cache.getD 50 < 50 →
      evaluate_loan_eligibility c today amount rate n =
        ⟨true, "Loan approved", quantize2 (emi_unrounded amount rate n),
          c.credit_score_cache.getD 50⟩) := by
  refine ⟨fun h1 => ?_, fun h1 h2 => ?_, fun h1 h2 h3 => ?_, fun h1 h2 h3 => ?_⟩ <;>
    unfold evaluate_loan_eligibility
  · rw [if_pos h1]
  · rw [if_neg h1, if_pos h2]
  · rw [if_neg h1, if_neg h2, if_pos h3]
  · rw [if_neg h1, if_neg h2, if_neg h3]

/-- Witness for C7: the affordability gate fires first on a 2000000 request
against a 50000 salary. -/
theorem create_loan_gate_order_witness :
    evaluate_loan_eligibility fresh_customer today0 2000000 12 12 =
      ⟨false, "EMI exceeds 50% of monthly income", emi_unrounded 2000000 12 12,
        fresh_customer.credit_score_cache.getD 50⟩ :=
  (create_loan_gate_order fresh_customer today0 2000000 12 12).1
    (by norm_num [emi_unrounded, fresh_customer])

/-- C8: the check-eligibility decision (`evaluate_loan`) and the create-loan
decision (`evaluate_loan_eligibility`) disagree on a customer holding
3500000 of active principal against a 3600000 limit who requests 200000:
the former approves, the latter rejects at its approved-limit gate, which
the former lacks. -/
theorem eligibility_paths_diverge :
    (evaluate_loan near_limit_customer today0 200000 12 12).approved = true
    ∧ (evaluate_loan_eligibility near_limit_customer today0 200000 12 12) =
      ⟨false, "Exceeds approved credit limit", emi_unrounded 200000 12 12, 80⟩ := by
  constructor
  · norm_num [evaluate_loan, decision_credit_score, calculate_credit_score, int_trunc,
      calculate_emi, quantize2, round_half_even, Customer.get_current_emis_sum,
      Customer.get_current_loans_sum, Loan.repayments_left, Date.le,
      near_limit_customer, active_loan, today0]
  · norm_num [evaluate_loan_eligibility, emi_unrounded, Customer.get_current_loans_sum,
      Loan.repayments_left, Date.le, near_limit_customer, active_loan, today0]

/-- C9: at a business rejection (cached score 30, request 50000 at 10 percent
over 12 months), the create-loan endpoint responds with HTTP 200 — not a
4xx status — while carrying the machine-readable rejection, and the
check-eligibility endpoint also responds 200. -/
theorem create_loan_rejection_http_status :
    create_loan_response low_score_customer today0 50000 10 12 =
      ⟨200, false, "Credit score too low"⟩
    ∧ (check_eligibility_response low_score_customer today0 50000 10 12).http_status = 200 := by
  constructor
  · norm_num [create_loan_response, evaluate_loan_eligibility, emi_unrounded,
      Customer.get_current_loans_sum, low_score_customer, today0, quantize2,
      round_half_even]
  · rfl

/-- C4 is refuted as stated: a single historical loan with amount -10000000
drives the volume component to -100 and the score to -95, outside [0, 100]. -/
theorem credit_score_negative_on_negative_amount :
    calculate_credit_score negative_volume_customer today0 = -95
    ∧ ¬ 0 ≤ calculate_credit_score negative_volume_customer today0 := by
  have hceil : ⌈(-100 : ℚ)⌉ = -100 := by
    have h2 : ((-100 : ℤ) : ℚ) = -100 := by norm_num
    rw [← h2, Int.ceil_intCast]
  constructor <;>
    norm_num [calculate_credit_score, int_trunc, negative_volume_customer,
      negative_amount_loan, today0, hceil]

/-- Truncation toward zero of a nonnegative rational is its floor, hence
nonnegative. -/
theorem int_trunc_nonneg {x : ℚ} (h : 0 ≤ x) : 0 ≤ int_trunc x := by
  unfold int_trunc
  rw [if_pos h]
  exact Int.floor_nonneg.mpr h

/-- Truncation toward zero of a nonnegative rational bounded by an integer is
bounded by that integer. -/
theorem int_trunc_le {x : ℚ} {m : ℤ} (h0 : 0 ≤ x) (h : x ≤ (m : ℚ)) :
    int_trunc x ≤ m := by
  unfold int_trunc
  rw [if_pos h0]
  exact Int.le_of_sub_nonneg (by
    have := Int.floor_le_floor h
    simp only [Int.floor_intCast] at this
    omega)

/-- C4 amended: for every loan history whose recorded amounts are
nonnegative (as the data model requires: stored amounts are at least 1000),
`calculate_credit_score` returns an integer in [0, 100]. -/
theorem credit_score_in_range (c : Customer) (today : Date)
    (h : ∀ l ∈ c.loans, 0 ≤ l.loan_amount) :
    0 ≤ calculate_credit_score c today ∧ calculate_credit_score c today ≤ 100 := by
  unfold calculate_credit_score
  split_ifs with he
  · norm_num
  · have hlen : 0 < c.loans.length := by
      cases hL : c.loans with
      | nil => rw [hL] at he; simp at he
      | cons a l => simp [hL]
    have hlenQ : (0 : ℚ) < (c.loans.length : ℚ) := by exact_mod_cast hlen
    have hfil : ((c.loans.filter fun l => decide (0 < l.emis_paid_on_time)).length : ℚ) ≤
        (c.loans.length : ℚ) := by exact_mod_cast List.length_filter_le _ _
    have hr0 : (0 : ℚ) ≤
        (((c.loans.filter fun l => decide (0 < l.emis_paid_on_time)).length : ℚ) /
          (c.loans.length : ℚ)) * 30 := by positivity
    have hr30 : (((c.loans.filter fun l => decide (0 < l.emis_paid_on_time)).length : ℚ) /
          (c.loans.length : ℚ)) * 30 ≤ ((30 : ℤ) : ℚ) := by
      have hdiv : ((c.loans.filter fun l => decide (0 < l.emis_paid_on_time)).length : ℚ) /
          (c.loans.length : ℚ) ≤ 1 := by
        rw [div_le_one hlenQ]
        exact hfil
      push_cast
      nlinarith
    have h1a := int_trunc_nonneg hr0
    have h1b := int_trunc_le hr0 hr30
    have hsum : (0 : ℚ) ≤ (c.loans.map Loan.loan_amount).sum := by
      apply List.sum_nonneg
      intro x hx
      obtain ⟨l, hl, rfl⟩ := List.mem_map.mp hx
      exact h l hl
    have h4a : 0 ≤ int_trunc ((c.loans.map Loan.loan_amount).sum / 100000) :=
      int_trunc_nonneg (by positivity)
    constructor <;> omega

/-- Witness for the amended C4: the near-limit customer has four loans of
875000 and scores 90, inside [0, 100]. -/
theorem credit_score_in_range_witness :
    0 ≤ calculate_credit_score near_limit_customer today0
    ∧ calculate_credit_score near_limit_customer today0 ≤ 100 :=
  credit_score_in_range near_limit_customer today0
    (by norm_num [near_limit_customer, active_loan])

/-- Geometric-sum identity: `annuity_sum m n * (m * (1+m)^n) = (1+m)^n - 1`. -/
theorem annuity_sum_mul (m : ℚ) (hm : 1 + m ≠ 0) (n : ℕ) :
    annuity_sum m n * (m * (1 + m) ^ n) = (1 + m) ^ n - 1 := by
  induction n with
  | zero => simp [annuity_sum]
  | succ n ih =>
      have hx : ((1 : ℚ) + m) ^ (n + 1) ≠ 0 := pow_ne_zero _ hm
      have ht : (((1 : ℚ) + m) ^ (n + 1))⁻¹ * ((1 + m) ^ (n + 1)) = 1 := inv_mul_cancel₀ hx
      have hsplit : annuity_sum m (n + 1) = annuity_sum m n + ((1 + m) ^ (n + 1))⁻¹ := by
        unfold annuity_sum
        exact Finset.sum_range_succ _ n
      calc annuity_sum m (n + 1) * (m * (1 + m) ^ (n + 1))
          = annuity_sum m n * (m * (1 + m) ^ n) * (1 + m) +
              m * ((((1 : ℚ) + m) ^ (n + 1))⁻¹ * ((1 + m) ^ (n + 1))) := by
            rw [hsplit]; ring
        _ = ((1 + m) ^ n - 1) * (1 + m) + m * 1 := by rw [ih, ht]
        _ = (1 + m) ^ (n + 1) - 1 := by ring

/-- The annuity sum is positive for a positive monthly rate and tenure. -/
theorem annuity_sum_pos (m : ℚ) (hm : 0 < m) (n : ℕ) (hn : 1 ≤ n) :
    0 < annuity_sum m n := by
  unfold annuity_sum
  apply Finset.sum_pos
  · intro k _
    exact inv_pos.mpr (pow_pos (by linarith) _)
  · exact Finset.nonempty_range_iff.mpr (by omega)

/-- The annuity sum strictly decreases as the monthly rate increases. -/
theorem annuity_sum_strict_anti (m1 m2 : ℚ) (h1 : 0 < m1) (h12 : m1 < m2) (n : ℕ)
    (hn : 1 ≤ n) : annuity_sum m2 n < annuity_sum m1 n := by
  unfold annuity_sum
  apply Finset.sum_lt_sum_of_nonempty (Finset.nonempty_range_iff.mpr (by omega))
  intro k _
  have hp1 : (0 : ℚ) < (1 + m1) ^ (k + 1) := pow_pos (by linarith) _
  have hlt : (1 + m1) ^ (k + 1) < (1 + m2) ^ (k + 1) :=
    pow_lt_pow_left₀ (by linarith) (by linarith) (Nat.succ_ne_zero k)
  exact inv_strictAnti₀ hp1 hlt

/-- The unrounded EMI formula equals `p / annuity_sum m n`. -/
theorem emi_formula_eq_div (p m : ℚ) (hm : 0 < m) (n : ℕ) (hn : 1 ≤ n) :
    p * m * (1 + m) ^ n / ((1 + m) ^ n - 1) = p / annuity_sum m n := by
  have hgt : (1 : ℚ) < (1 + m) ^ n := one_lt_pow₀ (by linarith) (by omega)
  have hden : ((1 : ℚ) + m) ^ n - 1 ≠ 0 := by linarith
  have hS : 0 < annuity_sum m n := annuity_sum_pos m hm n hn
  have hkey := annuity_sum_mul m (by linarith) n
  rw [div_eq_div_iff hden (ne_of_gt hS)]
  linear_combination p * hkey

/-- The unrounded EMI is strictly increasing in the monthly rate. -/
theorem raw_emi_strict_mono (p : ℚ) (hp : 0 < p) (m1 m2 : ℚ) (h1 : 0 < m1)
    (h12 : m1 < m2) (n : ℕ) (hn : 1 ≤ n) :
    p * m1 * (1 + m1) ^ n / ((1 + m1) ^ n - 1) <
      p * m2 * (1 + m2) ^ n / ((1 + m2) ^ n - 1) := by
  rw [emi_formula_eq_div p m1 h1 n hn, emi_formula_eq_div p m2 (by linarith) n hn]
  exact div_lt_div_of_pos_left hp (annuity_sum_pos m2 (by linarith) n hn)
    (annuity_sum_strict_anti m1 m2 h1 h12 n hn)

/-- `round_half_even` never exceeds the floor plus one. -/
theorem round_half_even_le_floor_add_one (x : ℚ) : round_half_even x ≤ ⌊x⌋ + 1 := by
  unfold round_half_even
  split_ifs <;> omega

/-- `round_half_even` is at least the floor. -/
theorem floor_le_round_half_even (x : ℚ) : ⌊x⌋ ≤ round_half_even x := by
  unfold round_half_even
  split_ifs <;> omega

/-- Round-half-even is monotone. -/
theorem round_half_even_mono {x y : ℚ} (h : x ≤ y) :
    round_half_even x ≤ round_half_even y := by
  rcases lt_or_le (⌊x⌋) (⌊y⌋) with hf | hf
  · calc round_half_even x ≤ ⌊x⌋ + 1 := round_half_even_le_floor_add_one x
      _ ≤ ⌊y⌋ := by omega
      _ ≤ round_half_even y := floor_le_round_half_even y
  · have hfe : ⌊y⌋ = ⌊x⌋ := le_antisymm hf (Int.floor_le_floor h)
    unfold round_half_even
    rw [hfe]
    split_ifs <;> first | omega | (exfalso; linarith)

/-- Rounding to two decimals, half to even, is monotone. -/
theorem quantize2_mono {x y : ℚ} (h : x ≤ y) : quantize2 x ≤ quantize2 y := by
  unfold quantize2
  have hr := round_half_even_mono (by linarith : (100 : ℚ) * x ≤ 100 * y)
  have hrq : ((round_half_even (100 * x) : ℤ) : ℚ) ≤ ((round_half_even (100 * y) : ℤ) : ℚ) := by
    exact_mod_cast hr
  linarith

/-- C6 is refuted at the zero-rate boundary: for principal 1000.01 and
tenure 100, the rate pair 0 < 0.01 gives a strictly smaller EMI at the
larger rate (10.00 versus 10.0001), because the zero-rate branch is
unrounded while the positive-rate branch rounds to two decimals. -/
theorem emi_not_monotone_at_zero_rate :
    (0 : ℚ) ≤ 0 ∧ (0 : ℚ) < 1/100 ∧
      calculate_emi (100001/100) (1/100) 100 < calculate_emi (100001/100) 0 100 := by
  refine ⟨le_refl 0, by norm_num, ?_⟩
  norm_num [calculate_emi, quantize2, round_half_even]

/-- C6 amended: for fixed principal `p > 0` and tenure `n ≥ 1`, the EMI is
monotone in the annual rate over strictly positive rates: for all rates
`0 < r1 < r2`, `emi p r1 n ≤ emi p r2 n`. -/
theorem emi_monotone_in_rate (p r1 r2 : ℚ) (n : ℕ) (hp : 0 < p) (hn : 1 ≤ n)
    (h1 : 0 < r1) (h12 : r1 < r2) :
    calculate_emi p r1 n ≤ calculate_emi p r2 n := by
  have hm1 : 0 < r1 / 1200 := by positivity
  have hm2 : r1 / 1200 < r2 / 1200 := by linarith
  unfold calculate_emi
  rw [if_neg (ne_of_gt hm1), if_neg (ne_of_gt (by linarith : (0:ℚ) < r2 / 1200))]
  exact quantize2_mono
    (le_of_lt (raw_emi_strict_mono p hp (r1 / 1200) (r2 / 1200) hm1 hm2 n hn))

/-- Witness for the amended C6 at `p = 1000`, rates 10 and 12, tenure 12. -/
theorem emi_monotone_in_rate_witness :
    calculate_emi 1000 10 12 ≤ calculate_emi 1000 12 12 :=
  emi_monotone_in_rate 1000 10 12 12 (by norm_num) (by norm_num) (by norm_num)
    (by norm_num)

end CreditSystem
